import Mathlib

/-!
Shallow embedding of the TaskMaster agent core (`main.py`): the weather tool
`get_weather`, the orchestrator `run_agent`, and the HTTP endpoint handler
`handle_agent_request`.  External collaborators (the Gemini client, the
`json.loads` library routine, the `requests` HTTP layer, URL quoting and the
configured API key) are modelled as a record of pure stub functions; the JSON
values exchanged with them are modelled by the inductive `Json`.  Python
runtime behaviour that the code relies on (truthiness, `in` membership tests,
`str()` formatting, `str.strip`/`str.replace`, `**kwargs` binding and the
exceptions those operations raise) is modelled explicitly so that the
orchestrator can be analysed on arbitrary collaborator outputs.
-/

namespace TaskMaster

/-! ### Python string primitives (models of `str.strip`, `str.replace`, `in`, `str.join`) -/

/-- Python whitespace characters recognised by `str.strip()`. -/
def isPySpace (c : Char) : Bool :=
  c = ' ' || c = '\t' || c = '\n' || c = '\r' || c.toNat = 11 || c.toNat = 12

/-- Strip leading and trailing whitespace from a character list. -/
def pyStripList (s : List Char) : List Char :=
  ((s.dropWhile isPySpace).reverse.dropWhile isPySpace).reverse

/-- Model of Python `s.strip()`. -/
def pyStrip (s : String) : String := ⟨pyStripList s.data⟩

/-- Fuel-indexed worker for `pyReplace`; replaces non-overlapping occurrences
of `pat` left to right, as Python `str.replace` does.  The fuel is the length
of the scanned list, which always suffices because each step consumes at
least one character. -/
def replaceGo (pat rep : List Char) : Nat → List Char → List Char
  | _, [] => []
  | 0, s => s
  | n + 1, c :: rest =>
    if pat ≠ [] ∧ pat.isPrefixOf (c :: rest) then
      rep ++ replaceGo pat rep n (List.drop (pat.length - 1) rest)
    else
      c :: replaceGo pat rep n rest

/-- Model of Python `s.replace(pat, rep)`. -/
def pyReplace (s pat rep : String) : String :=
  ⟨replaceGo pat.data rep.data s.data.length s.data⟩

/-- Worker for the substring test. -/
def containsSub (s pat : List Char) : Bool :=
  match s with
  | [] => pat.isEmpty
  | _ :: rest => pat.isPrefixOf s || containsSub rest pat

/-- Model of the Python substring test `pat in s`. -/
def strContainsSub (s pat : String) : Bool := containsSub s.data pat.data

/-- Model of Python `sep.join(xs)`. -/
def pyJoin (sep : String) : List String → String
  | [] => ""
  | [x] => x
  | x :: y :: r => x ++ sep ++ pyJoin sep (y :: r)

/-- The substring relation on strings, used to state that a formatted
sentence carries a field verbatim. -/
def isSubstrOf (pat s : String) : Prop := ∃ pre post, s = pre ++ pat ++ post

/-! ### JSON values and Python value semantics -/

/-- JSON values, as produced by `json.loads`.  Numbers are modelled as
integers (every number appearing in the analysed paths is integral). -/
inductive Json where
  | null
  | bool (b : Bool)
  | num (n : Int)
  | str (s : String)
  | arr (xs : List Json)
  | obj (kvs : List (String × Json))

/-- Lookup of a key in a JSON object, as Python `dict.get`: the last binding
of a key wins, absent keys give `none`. -/
def objGet (kvs : List (String × Json)) (k : String) : Option Json :=
  kvs.foldl (fun acc p => if p.1 = k then some p.2 else acc) none

/-- Python truthiness of a JSON value. -/
def truthy : Json → Bool
  | .null => false
  | .bool b => b
  | .num n => n != 0
  | .str s => s ≠ ""
  | .arr xs => !xs.isEmpty
  | .obj kvs => !kvs.isEmpty

mutual

/-- Python `==` on JSON values (numbers and booleans compare numerically;
container comparison is structural, which coincides with Python on the
values reaching any comparison site in this program). -/
def pyEq : Json → Json → Bool
  | .null, .null => true
  | .bool a, .bool b => a == b
  | .bool a, .num n => (if a then (1 : Int) else 0) == n
  | .num n, .bool a => n == (if a then (1 : Int) else 0)
  | .num a, .num b => a == b
  | .str a, .str b => a == b
  | .arr a, .arr b => pyEqList a b
  | .obj a, .obj b => pyEqObj a b
  | _, _ => false

/-- Elementwise Python `==` on JSON arrays. -/
def pyEqList : List Json → List Json → Bool
  | [], [] => true
  | a :: as, b :: bs => pyEq a b && pyEqList as bs
  | _, _ => false

/-- Pairwise Python `==` on JSON objects. -/
def pyEqObj : List (String × Json) → List (String × Json) → Bool
  | [], [] => true
  | (k, v) :: as, (k2, v2) :: bs => k == k2 && pyEq v v2 && pyEqObj as bs
  | _, _ => false

end

mutual

/-- Python `repr()` of a JSON value (strings quoted, dicts and lists in
Python literal syntax), as interpolated by f-strings for containers. -/
def pyRepr : Json → String
  | .null => "None"
  | .bool true => "True"
  | .bool false => "False"
  | .num n => toString n
  | .str s => "\x27" ++ s ++ "\x27"
  | .arr xs => "[" ++ pyReprList xs ++ "]"
  | .obj kvs => "\x7b" ++ pyReprObj kvs ++ "\x7d"

/-- Comma-separated reprs of a list of JSON values. -/
def pyReprList : List Json → String
  | [] => ""
  | [x] => pyRepr x
  | x :: y :: r => pyRepr x ++ ", " ++ pyReprList (y :: r)

/-- Comma-separated reprs of the bindings of a JSON object. -/
def pyReprObj : List (String × Json) → String
  | [] => ""
  | [(k, v)] => "\x27" ++ k ++ "\x27: " ++ pyRepr v
  | (k, v) :: p :: r => "\x27" ++ k ++ "\x27: " ++ pyRepr v ++ ", " ++ pyReprObj (p :: r)

end

/-- Python `str()` of a JSON value, as interpolated by f-strings. -/
def pyStr : Json → String
  | .str s => s
  | j => pyRepr j

/-! ### Exceptions, collaborator stubs and transient request data -/

/-- The Python exception classes distinguished by the control flow of
`main.py`. -/
inductive PyExc where
  | typeError
  | attributeError
  | keyError
  | indexError
  | nameError
deriving DecidableEq

/-- Outcome of one `client.models.generate_content` call: either the call
(or the `.text` access) raised, or it produced response text. -/
inductive LLMResult where
  | raised
  | text (t : String)

/-- Outcome of `requests.get(url, timeout=10)` followed by `.json()`:
a timeout, another `RequestException`, or a response with an HTTP status
code and a parsed JSON body. -/
inductive HttpOutcome where
  | timeout
  | requestError
  | ok (status : Nat) (body : Json)

/-- The external collaborators of the core: the Gemini client (one handle
serving both LLM calls), the `json.loads` library routine, the `requests`
HTTP layer with its timeout argument, `requests.utils.quote`, and the
configured OpenWeatherMap API key. -/
structure Collab where
  generate_content : String → LLMResult
  jsonLoads : String → Option Json
  httpGet : String → Nat → HttpOutcome
  quote : String → String
  weatherApiKey : String

/-- Observable side effects of one request: LLM invocations (with the
prompt sent) and evaluations of the tool call expression
`tool_function(**parameters)` (with the arguments value). -/
inductive Event where
  | llmCall (prompt : String)
  | toolCall (name : String) (args : Json)

/-- The `debug_info` dictionary assembled at the end of `run_agent`. -/
structure DebugInfo where
  parsed_intent : Json
  tool_called : Json
  tool_parameters : Json
  tool_result : Json

/-- The value returned by `run_agent` and wrapped into `AgentResponse` by
the endpoint. -/
structure AgentResponse where
  response : String
  debug_info : DebugInfo

/-- An HTTP reply of the `/agent` endpoint: a 200 with an `AgentResponse`,
or an `HTTPException` with a status code and detail string. -/
inductive HttpReply where
  | ok (body : AgentResponse)
  | error (status : Nat) (detail : String)

/-! ### The weather tool (`get_weather` in `main.py`) -/

/-- Message returned for an empty or whitespace-only location. -/
def emptyLocationMsg : String := "Error: Please specify a location for the weather."

/-- Message returned when the upstream request times out. -/
def timeoutMsg : String :=
  "Error: The weather service took too long to respond. Please try again later."

/-- Message returned for a generic `RequestException` (including the
`HTTPError` that `raise_for_status` raises for 5xx responses). -/
def connectionFailureMsg : String :=
  "Error: Could not connect to the weather service. Please check your connection or try again later."

/-- Message returned when a `KeyError` escapes the response-shape handling. -/
def badFormatMsg : String :=
  "Error: Received an unexpected response format from the weather service."

/-- Message returned when any other exception escapes the `try` body. -/
def unknownErrorMsg : String :=
  "Error: An unexpected error occurred while fetching weather data."

/-- Message returned when the body reports `cod == "404"`. -/
def cityNotFoundMsg (location : String) : String :=
  "Error: Sorry, I couldn\x27t find weather data for the city \x27" ++ location ++
    "\x27. Please check the spelling."

/-- Message returned when the body reports a `cod` other than 200 and "404". -/
def apiReportedMsg (message : Json) : String :=
  "Error: Could not retrieve weather data. API reported: " ++ pyStr message

/-- The success sentence assembled from the response fields
(`f"The weather in {city_name} is currently {description} with a temperature
of {temperature}°C (feels like {feels_like}°C) and humidity of {humidity}%."`). -/
def weatherSentence (city_name description temperature feels_like humidity : Json) : String :=
  "The weather in " ++ pyStr city_name ++ " is currently " ++ pyStr description ++
    " with a temperature of " ++ pyStr temperature ++ "°C (feels like " ++
    pyStr feels_like ++ "°C) and humidity of " ++ pyStr humidity ++ "%."

/-- The `timeout=` argument passed to `requests.get`. -/
def weatherRequestTimeout : Nat := 10

/-- The request URL built from the base URL, the API key, the quoted
location and the units suffix. -/
def weatherUrl (c : Collab) (location : String) : String :=
  "http://api.openweathermap.org/data/2.5/weather?" ++ "appid=" ++ c.weatherApiKey ++
    "&q=" ++ c.quote location ++ "&units=metric"

/-- Python attribute-style `j.get(k, dflt)`: succeeds on dicts, raises
`AttributeError` otherwise. -/
def jsonGetAttr (j : Json) (k : String) (dflt : Json) : Except PyExc Json :=
  match j with
  | .obj kvs => .ok ((objGet kvs k).getD dflt)
  | _ => .error (.attributeError)

/-- Python subscript `j[0]`: first element of a list, first character of a
string, `KeyError` on a string-keyed dict, `TypeError` otherwise. -/
def pySubscript0 (j : Json) : Except PyExc Json :=
  match j with
  | .arr (x :: _) => .ok x
  | .arr [] => .error (.indexError)
  | .str s =>
    match s.data with
    | c :: _ => .ok (Json.str ⟨[c]⟩)
    | [] => .error (.indexError)
  | .obj _ => .error (.keyError)
  | _ => .error (.typeError)

/-- The field-extraction and formatting block run when `cod == 200`
(lines 69-84 of `main.py`); any exception it raises is mapped to a message
by `handleWeatherBody`. -/
def formatWeather (kvs : List (String × Json)) (location : String) : Except PyExc String := do
  let mainJ := (objGet kvs ("main")).getD (Json.obj [])
  let weather_list := (objGet kvs ("weather")).getD (Json.arr [])
  let temperature ← jsonGetAttr mainJ ("temp") (Json.str ("N/A"))
  let feels_like ← jsonGetAttr mainJ ("feels_like") (Json.str ("N/A"))
  let humidity ← jsonGetAttr mainJ ("humidity") (Json.str ("N/A"))
  let description ←
    (if truthy weather_list then do
      let w0 ← pySubscript0 weather_list
      jsonGetAttr w0 ("description") (Json.str ("N/A"))
    else pure (Json.str ("N/A")))
  let city_name := (objGet kvs ("name")).getD (Json.str location)
  pure (weatherSentence city_name description temperature feels_like humidity)

/-- Dispatch on the parsed response body (lines 66-92 of `main.py`), with
the surrounding `except KeyError` / `except Exception` handlers applied to
whatever the body inspection raises. -/
def handleWeatherBody (data : Json) (location : String) : String :=
  match data with
  | .obj kvs =>
    let cod := (objGet kvs ("cod")).getD Json.null
    if pyEq cod (Json.num 200) then
      match formatWeather kvs location with
      | .ok s => s
      | .error .keyError => badFormatMsg
      | .error _ => unknownErrorMsg
    else if pyEq cod (Json.str ("404")) then
      cityNotFoundMsg location
    else
      apiReportedMsg ((objGet kvs ("message")).getD (Json.str ("Unknown API error")))
  | _ => unknownErrorMsg

/-- The weather tool.  The emptiness test runs before the `try` block, so a
truthy non-string location raises `AttributeError` out of the tool (to be
caught by the orchestrator); everything inside the `try` is converted to a
message by the tool itself. -/
def get_weather (c : Collab) (location : Json) : Except PyExc String :=
  if ¬ truthy location then .ok emptyLocationMsg
  else
    match location with
    | .str s =>
      if pyStrip s = "" then .ok emptyLocationMsg
      else
        match c.httpGet (weatherUrl c s) weatherRequestTimeout with
        | .timeout => .ok timeoutMsg
        | .requestError => .ok connectionFailureMsg
        | .ok status body =>
          if status ≥ 500 then .ok connectionFailureMsg
          else .ok (handleWeatherBody body s)
    | _ => .error (.attributeError)

/-! ### The orchestrator (`run_agent` in `main.py`) -/

/-- The names registered in the `TOOLS` dictionary. -/
def TOOLS : List String := ["get_weather"]

/-- The required parameter names of `get_weather`, as read from
`tool_function.__code__.co_varnames[:co_argcount]`. -/
def get_weather_required_params : List String := ["location"]

/-- The intent-parsing prompt built from the user query (lines 127-153 of
`main.py`, with the tool list and the query interpolated). -/
def intentPrompt (user_query : String) : String :=
  "\n    Analyze the user\x27s query and determine the primary intent. \n" ++
  "    Based on the intent, decide if one of the available tools should be used.\n" ++
  "    Available tools: [\x27get_weather\x27]\n    \n" ++
  "    User Query: \"" ++ user_query ++ "\"\n\n" ++
  "    Respond in JSON format with the following keys:\n" ++
  "    - \"tool_name\": The name of the tool to use (from the available list) or \"none\" if no tool is needed or the intent is unclear.\n" ++
  "    - \"parameters\": An object containing the necessary parameters for the tool (e.g., \x7b\"location\": \"City Name\"\x7d for get_weather). If no tool is needed, this should be an empty object \x7b\x7d.\n\n" ++
  "    Example 1:\n    User Query: \"What\x27s the weather like in London?\"\n" ++
  "    Response: \x7b\"tool_name\": \"get_weather\", \"parameters\": \x7b\"location\": \"London\"\x7d\x7d\n\n" ++
  "    Example 2:\n    User Query: \"Tell me a joke.\"\n" ++
  "    Response: \x7b\"tool_name\": \"none\", \"parameters\": \x7b\x7d\x7d\n    \n" ++
  "    Example 3:\n    User Query: \"What is the capital of France?\"\n" ++
  "    Response: \x7b\"tool_name\": \"none\", \"parameters\": \x7b\x7d\x7d # No specific tool for general knowledge\n\n" ++
  "    Example 4: \n    User Query: \"How\x27s the weather?\"\n" ++
  "    Response: \x7b\"tool_name\": \"get_weather\", \"parameters\": \x7b\x7d\x7d # Tool identified, but parameter missing\n    "

/-- The markdown-fence cleanup applied to the intent response text:
`text.strip().replace(three-backticks-json, empty).replace(three-backticks,
empty).strip()`. -/
def cleanText (t : String) : String :=
  pyStrip (pyReplace (pyReplace (pyStrip t) ("```json") ("")) ("```") (""))

/-- The tool-result variant of the final response prompt (lines 212-220). -/
def toolResultPrompt (user_query : String) (tool_name parameters : Json) (tool_result : String) : String :=
  "\n        User Query: \"" ++ user_query ++ "\"\n" ++
  "        You decided to use the tool: \x27" ++ pyStr tool_name ++
    "\x27 with parameters: " ++ pyStr parameters ++ "\n" ++
  "        The result from the tool is: \"" ++ tool_result ++ "\"\n        \n" ++
  "        Based ONLY on the user query and the tool result, generate a concise and helpful natural language response for the user. \n" ++
  "        - If the tool executed successfully, incorporate its result smoothly into your answer.\n" ++
  "        - If the tool returned an error (e.g., city not found, missing parameters, API failure), explain the error clearly and politely to the user. Do not make up information if there was an error.\n        "

/-- The missing-parameters variant of the final response prompt
(lines 223-227). -/
def missingParamsPrompt (user_query : String) (tool_name : Json) (required_params : List String) : String :=
  "\n         User Query: \"" ++ user_query ++ "\"\n" ++
  "         You identified the intent requires the \x27" ++ pyStr tool_name ++
    "\x27 tool, but the necessary parameters (" ++ pyJoin (", ") required_params ++
    ") were missing in the query.\n" ++
  "         Politely ask the user to provide the missing information. For example, if they asked for weather without a city, ask them for the city name.\n         "

/-- The no-tool variant of the final response prompt (lines 230-234). -/
def noToolPrompt (user_query : String) : String :=
  "\n        User Query: \"" ++ user_query ++ "\"\n" ++
  "        No specific tool was needed or could be confidently identified to answer this query.\n" ++
  "        Respond directly and conversationally to the user based on their query. If it\x27s general knowledge you might know, answer it. If not, state that you cannot perform that specific task or ask for clarification.\n        "

/-- The fixed fallback answer used when the final LLM call raises. -/
def fallbackAnswer : String :=
  "Sorry, I encountered an error while trying to generate a response."

/-- The generic message produced when the tool call raises (line 195). -/
def toolFailedMsg (tool_to_use : Json) : String :=
  "Error: Failed to execute the tool \x27" ++ pyStr tool_to_use ++ "\x27."

/-- The missing-parameters message produced at line 199. -/
def missingParamsMsg (tool_to_use : Json) (required_params : List String) : String :=
  "Error: I need more information to use the \x27" ++ pyStr tool_to_use ++
    "\x27 tool. Please provide: " ++ pyJoin (", ") required_params ++ "."

/-- The unknown-tool message produced at line 205. -/
def toolUnavailableMsg (tool_to_use : Json) : String :=
  "Error: I cannot perform that action as the tool \x27" ++ pyStr tool_to_use ++
    "\x27 is not available."

/-- Python `tool_to_use in TOOLS` on a dict with string keys: string values
are compared against the keys, other hashable values match no key, and
unhashable values (lists, dicts) raise `TypeError`. -/
def pyInTOOLS : Json → Except PyExc Bool
  | .arr _ => .error (.typeError)
  | .obj _ => .error (.typeError)
  | .str s => .ok (TOOLS.contains s)
  | _ => .ok false

/-- Python `param in parameters` for a string `param`: key membership on
dicts, elementwise `==` on lists, substring test on strings, `TypeError`
on non-container values. -/
def pyInContainer (param : String) : Json → Except PyExc Bool
  | .obj kvs => .ok (kvs.any (fun p => p.1 = param))
  | .arr xs => .ok (xs.any (fun j => pyEq (Json.str param) j))
  | .str s => .ok (strContainsSub s param)
  | _ => .error (.typeError)

/-- Python `all(param in parameters for param in required_params)`, with the
short-circuiting of `all`. -/
def allParamsPresent : List String → Json → Except PyExc Bool
  | [], _ => .ok true
  | p :: rest, ps =>
    match pyInContainer p ps with
    | .error e => .error e
    | .ok false => .ok false
    | .ok true => allParamsPresent rest ps

/-- Evaluation of the call expression `tool_function(**parameters)` at
line 192: `**` unpacking requires a mapping, keyword binding against
`get_weather(location)` rejects missing or unexpected keywords with
`TypeError`, and on success the tool body runs.  The emitted `toolCall`
event records that the call expression was evaluated with exactly the
parsed parameters value. -/
def invokeTool (c : Collab) (parameters : Json) : List Event × Except PyExc String :=
  ([Event.toolCall ("get_weather") parameters],
    match parameters with
    | .obj pkvs =>
      if pkvs.all (fun p => p.1 = "location") then
        match objGet pkvs ("location") with
        | some v => get_weather c v
        | none => .error (.typeError)
      else .error (.typeError)
    | _ => .error (.typeError))

/-- Stage 1 of `run_agent` (lines 155-180): the intent LLM call, markdown
cleanup, `json.loads`, and the two `except` handlers.  Returns the
`parsed_intent` local (absent when it was never assigned), `tool_to_use`
and `parameters`. -/
def classifyIntent (c : Collab) (user_query : String) : Option Json × Json × Json :=
  match c.generate_content (intentPrompt user_query) with
  | .raised => (none, Json.str ("none"), Json.obj [])
  | .text t =>
    match c.jsonLoads (cleanText t) with
    | none => (none, Json.str ("none"), Json.obj [])
    | some j =>
      match j with
      | .obj kvs =>
        (some j, (objGet kvs ("tool_name")).getD Json.null,
          (objGet kvs ("parameters")).getD (Json.obj []))
      | _ => (some j, Json.str ("none"), Json.obj [])

/-- Stage 2 of `run_agent` (lines 183-206): tool dispatch, parameter
validation, tool execution with its `except` handler, and the unknown-tool
branch.  Returns the `tool_result` local, the updated `tool_to_use`, and
the tool-call events; an uncaught `TypeError` from the membership tests
propagates. -/
def executeTool (c : Collab) (tool_to_use parameters : Json) :
    Except PyExc (Option String × Json × List Event) :=
  if truthy tool_to_use then
    match pyInTOOLS tool_to_use with
    | .error e => .error e
    | .ok true =>
      match allParamsPresent get_weather_required_params parameters with
      | .error e => .error e
      | .ok true =>
        match (invokeTool c parameters).2 with
        | .ok s => .ok (some s, tool_to_use, (invokeTool c parameters).1)
        | .error _ =>
          .ok (some (toolFailedMsg tool_to_use), tool_to_use, (invokeTool c parameters).1)
      | .ok false =>
        .ok (some (missingParamsMsg tool_to_use get_weather_required_params),
          Json.str ("none_missing_params"), [])
    | .ok false =>
      if truthy tool_to_use ∧ ¬ pyEq tool_to_use (Json.str ("none")) then
        .ok (some (toolUnavailableMsg tool_to_use), Json.str ("none"), [])
      else .ok (none, tool_to_use, [])
  else .ok (none, tool_to_use, [])

/-- Python truthiness of the `tool_result` local (`None` or a string). -/
def toolResultTruthy : Option String → Bool
  | some s => s ≠ ""
  | none => false

/-- Evaluation of `parsed_intent.get(k, dflt)` at lines 214, 225 and 254:
`NameError` when the local was never assigned, `AttributeError` when the
parsed value is not a dict. -/
def parsedIntentGet (parsed_intent : Option Json) (k : String) (dflt : Json) : Except PyExc Json :=
  match parsed_intent with
  | none => .error (.nameError)
  | some (.obj kvs) => .ok ((objGet kvs k).getD dflt)
  | some _ => .error (.attributeError)

/-- Stage 3 prompt selection (lines 209-234): the tool-result variant when
`tool_result` is truthy, the missing-parameters variant when `tool_to_use`
equals "none_missing_params", the no-tool variant otherwise. -/
def selectFinalPrompt (user_query : String) (parsed_intent : Option Json)
    (tool_to_use parameters : Json) (tool_result : Option String) : Except PyExc String :=
  if toolResultTruthy tool_result then do
    let tn ← parsedIntentGet parsed_intent ("tool_name") (Json.str ("N/A"))
    pure (toolResultPrompt user_query tn parameters
      (match tool_result with | some s => s | none => ""))
  else if pyEq tool_to_use (Json.str ("none_missing_params")) then do
    let tn ← parsedIntentGet parsed_intent ("tool_name") (Json.str ("N/A"))
    pure (missingParamsPrompt user_query tn get_weather_required_params)
  else pure (noToolPrompt user_query)

/-- The `debug_info` dictionary (lines 252-257). -/
def buildDebugInfo (parsed_intent : Option Json) (parameters : Json)
    (tool_result : Option String) : Except PyExc DebugInfo := do
  let tc ←
    (if toolResultTruthy tool_result then
      parsedIntentGet parsed_intent ("tool_name") (Json.str ("N/A"))
    else pure (Json.str ("none")))
  pure
    { parsed_intent :=
        (match parsed_intent with | some j => j | none => Json.str ("Parsing Failed")),
      tool_called := tc,
      tool_parameters := parameters,
      tool_result :=
        (if toolResultTruthy tool_result then
          Json.str (match tool_result with | some s => s | none => "")
        else Json.str ("N/A")) }

/-- The orchestrator `run_agent`: classification, tool execution, final
prompt selection, the final LLM call with its fallback, and the response
dictionary.  The first component collects the observable events in order;
the second is the returned value, or the exception that escaped. -/
def run_agent (c : Collab) (user_query : String) : List Event × Except PyExc AgentResponse :=
  let intentEvents := [Event.llmCall (intentPrompt user_query)]
  match classifyIntent c user_query with
  | (parsed_intent, tool_to_use, parameters) =>
    match executeTool c tool_to_use parameters with
    | .error e => (intentEvents, .error e)
    | .ok (tool_result, tool_to_use2, toolEvents) =>
      match selectFinalPrompt user_query parsed_intent tool_to_use2 parameters tool_result with
      | .error e => (intentEvents ++ toolEvents, .error e)
      | .ok finalPrompt =>
        let allEvents := intentEvents ++ toolEvents ++ [Event.llmCall finalPrompt]
        let final_answer :=
          match c.generate_content finalPrompt with
          | .text t => pyStrip t
          | .raised => fallbackAnswer
        match buildDebugInfo parsed_intent parameters tool_result with
        | .error e => (allEvents, .error e)
        | .ok dbg => (allEvents, .ok { response := final_answer, debug_info := dbg })

/-- The `/agent` endpoint handler: empty-query validation before the core
runs, and the catch-all that turns an escaped exception into a 500. -/
def handle_agent_request (c : Collab) (query : String) : List Event × HttpReply :=
  if query = "" ∨ pyStrip query = "" then
    ([], HttpReply.error 400 ("Query cannot be empty."))
  else
    match run_agent c query with
    | (evs, .ok a) => (evs, HttpReply.ok a)
    | (evs, .error _) =>
      (evs, HttpReply.error 500 ("Internal Server Error: An unexpected error occurred."))

/-- The tool-call events of a trace. -/
def toolCallsOf (evs : List Event) : List Event :=
  evs.filter (fun e => match e with | .toolCall _ _ => true | _ => false)

/-- The value `json.loads` produced for the cleaned intent response, when
the intent LLM call and the parse both succeeded. -/
def intentParseOutcome (c : Collab) (user_query : String) : Option Json :=
  match c.generate_content (intentPrompt user_query) with
  | .raised => none
  | .text t => c.jsonLoads (cleanText t)

/-! ### Safety condition on parsed intents

`run_agent` evaluates `tool_to_use in TOOLS` and
`param in parameters` outside of any `try` block, so a parsed intent whose
`tool_name` is a truthy unhashable value, or whose `parameters` does not
support membership tests while `tool_name` names the registered tool,
raises an uncaught `TypeError`.  `safeIntent` excludes exactly those
shapes. -/

/-- The `tool_name` value does not make `tool_to_use in TOOLS` raise:
truthy lists and dicts are unhashable. -/
def safeToolName : Json → Prop
  | .arr xs => xs = []
  | .obj kvs => kvs = []
  | _ => True

/-- The `parameters` value supports `param in parameters`: dicts, lists and
strings do; `None`, numbers and booleans raise `TypeError`. -/
def membershipSafe : Json → Prop
  | .null => False
  | .num _ => False
  | .bool _ => False
  | _ => True

/-- A parsed intent that cannot make the orchestrator raise. -/
def safeIntent : Json → Prop
  | .obj kvs =>
    safeToolName ((objGet kvs ("tool_name")).getD Json.null)
    ∧ ((objGet kvs ("tool_name")).getD Json.null = Json.str ("get_weather") →
        membershipSafe ((objGet kvs ("parameters")).getD (Json.obj [])))
  | _ => True

/-! ### Deterministic collaborator stubs used by concrete scenarios -/

/-- A deterministic stub collaborator layer: the LLM always answers with
the fixed text `t`, `json.loads` parses exactly that text to `j`, and the
HTTP layer always produces `h`. -/
def stubCollab (t : String) (j : Json) (h : HttpOutcome) : Collab :=
  { generate_content := fun _ => LLMResult.text t,
    jsonLoads := fun s => if s = t then some j else none,
    httpGet := fun _ _ => h,
    quote := fun s => s,
    weatherApiKey := "TESTKEY" }

/-- A stub collaborator layer whose LLM call always raises. -/
def raisingCollab : Collab :=
  { generate_content := fun _ => LLMResult.raised,
    jsonLoads := fun _ => none,
    httpGet := fun _ _ => HttpOutcome.requestError,
    quote := fun s => s,
    weatherApiKey := "TESTKEY" }

/-- Parameter bindings of the fully-supplied scenario. -/
def happyParamsKvs : List (String × Json) := [(("location"), Json.str ("London"))]

/-- Key-value bindings of the fully-supplied intent JSON. -/
def happyIntentKvs : List (String × Json) :=
  [(("tool_name"), Json.str ("get_weather")), (("parameters"), Json.obj happyParamsKvs)]

/-- The corresponding raw LLM response text. -/
def happyIntentText : String :=
  "\x7b\"tool_name\": \"get_weather\", \"parameters\": \x7b\"location\": \"London\"\x7d\x7d"

/-- Bindings of the `main` object of a well-formed 200 body. -/
def happyMainKvs : List (String × Json) :=
  [(("temp"), Json.num 15), (("feels_like"), Json.num 14), (("humidity"), Json.num 77)]

/-- Bindings of the first element of the `weather` list. -/
def happyWeather0Kvs : List (String × Json) := [(("description"), Json.str ("light rain"))]

/-- Key-value bindings of a well-formed 200 body from the weather API. -/
def happyBodyKvs : List (String × Json) :=
  [(("cod"), Json.num 200), (("main"), Json.obj happyMainKvs),
    (("weather"), Json.arr [Json.obj happyWeather0Kvs]), (("name"), Json.str ("London"))]

/-- Scenario: classification succeeds with full parameters and the weather
API answers 200. -/
def happyCollab : Collab :=
  stubCollab happyIntentText (Json.obj happyIntentKvs) (HttpOutcome.ok 200 (Json.obj happyBodyKvs))

/-- Key-value bindings of the intent JSON with empty parameters. -/
def missingIntentKvs : List (String × Json) :=
  [(("tool_name"), Json.str ("get_weather")), (("parameters"), Json.obj [])]

/-- The corresponding raw LLM response text. -/
def missingIntentText : String :=
  "\x7b\"tool_name\": \"get_weather\", \"parameters\": \x7b\x7d\x7d"

/-- Scenario: known tool, missing parameter. -/
def missingCollab : Collab :=
  stubCollab missingIntentText (Json.obj missingIntentKvs) (HttpOutcome.timeout)

/-- Key-value bindings of the intent JSON with a null `parameters` value. -/
def nullParamsIntentKvs : List (String × Json) :=
  [(("tool_name"), Json.str ("get_weather")), (("parameters"), Json.null)]

/-- The corresponding raw LLM response text. -/
def nullParamsIntentText : String :=
  "\x7b\"tool_name\": \"get_weather\", \"parameters\": null\x7d"

/-- Scenario: known tool but a non-mapping `parameters` value. -/
def nullParamsCollab : Collab :=
  stubCollab nullParamsIntentText (Json.obj nullParamsIntentKvs) (HttpOutcome.timeout)

/-- Key-value bindings of the intent JSON missing the `tool_name` key. -/
def noNameIntentKvs : List (String × Json) :=
  [(("parameters"), Json.obj [(("location"), Json.str ("Paris"))])]

/-- The corresponding raw LLM response text. -/
def noNameIntentText : String :=
  "\x7b\"parameters\": \x7b\"location\": \"Paris\"\x7d\x7d"

/-- Scenario: required key `tool_name` absent from the parsed intent. -/
def noNameCollab : Collab :=
  stubCollab noNameIntentText (Json.obj noNameIntentKvs) (HttpOutcome.timeout)

/-- Key-value bindings of the intent JSON whose `tool_name` is the empty
string. -/
def emptyToolIntentKvs : List (String × Json) :=
  [(("tool_name"), Json.str ("")), (("parameters"), Json.obj [])]

/-- The corresponding raw LLM response text. -/
def emptyToolIntentText : String :=
  "\x7b\"tool_name\": \"\", \"parameters\": \x7b\x7d\x7d"

/-- Scenario: classified tool name is the empty string. -/
def emptyToolCollab : Collab :=
  stubCollab emptyToolIntentText (Json.obj emptyToolIntentKvs) (HttpOutcome.timeout)

/-- Key-value bindings of the intent JSON naming an unregistered tool. -/
def stocksIntentKvs : List (String × Json) :=
  [(("tool_name"), Json.str ("get_stocks")), (("parameters"), Json.obj [])]

/-- The corresponding raw LLM response text. -/
def stocksIntentText : String :=
  "\x7b\"tool_name\": \"get_stocks\", \"parameters\": \x7b\x7d\x7d"

/-- Scenario: unknown tool name `get_stocks`. -/
def stocksCollab : Collab :=
  stubCollab stocksIntentText (Json.obj stocksIntentKvs) (HttpOutcome.timeout)

/-- Parameter bindings with the required parameter plus an extra keyword. -/
def extraParamsKvs : List (String × Json) :=
  [(("location"), Json.str ("London")), (("units"), Json.str ("metric"))]

/-- Key-value bindings of the intent JSON with an extra keyword argument. -/
def extraIntentKvs : List (String × Json) :=
  [(("tool_name"), Json.str ("get_weather")), (("parameters"), Json.obj extraParamsKvs)]

/-- The corresponding raw LLM response text. -/
def extraIntentText : String :=
  "\x7b\"tool_name\": \"get_weather\", \"parameters\": \x7b\"location\": \"London\", \"units\": \"metric\"\x7d\x7d"

/-- Scenario: extra keyword argument alongside the required one. -/
def extraCollab : Collab :=
  stubCollab extraIntentText (Json.obj extraIntentKvs) (HttpOutcome.ok 200 (Json.obj happyBodyKvs))

/-! ### General lemmas about the embedding -/

/-- Appending to a non-empty string yields a non-empty string. -/
lemma string_append_ne_empty (a b : String) (h : a ≠ "") : a ++ b ≠ "" := by
  intro hc
  apply h
  cases a with
  | mk da =>
    cases b with
    | mk db =>
      have hd : da ++ db = [] := congrArg String.data hc
      rcases List.append_eq_nil.mp hd with ⟨h1, _⟩
      exact congrArg String.mk h1

/-- A string with a non-empty strip is non-empty. -/
lemma ne_empty_of_pyStrip_ne (s : String) (h : pyStrip s ≠ "") : s ≠ "" := by
  intro hs
  exact h (by rw [hs]; rfl)

/-- The unknown-tool message is never the empty string. -/
lemma toolUnavailableMsg_ne_empty (tn : Json) : toolUnavailableMsg tn ≠ "" := by
  apply string_append_ne_empty
  apply string_append_ne_empty
  decide

/-- Composition of `run_agent` from the outcomes of its stages. -/
lemma run_agent_eq (c : Collab) (q : String) (pi : Option Json) (t2u ps : Json)
    (tr : Option String) (t2u2 : Json) (tevs : List Event) (fp : String) (d : DebugInfo)
    (hclass : classifyIntent c q = (pi, t2u, ps))
    (hexec : executeTool c t2u ps = Except.ok (tr, t2u2, tevs))
    (hprompt : selectFinalPrompt q pi t2u2 ps tr = Except.ok fp)
    (hdbg : buildDebugInfo pi ps tr = Except.ok d) :
    run_agent c q =
      ([Event.llmCall (intentPrompt q)] ++ tevs ++ [Event.llmCall fp],
        Except.ok
          { response :=
              (match c.generate_content fp with
                | .text t => pyStrip t
                | .raised => fallbackAnswer),
            debug_info := d }) := by
  simp [run_agent, hclass, hexec, hprompt, hdbg]

/-- Classification outcome when the parse yields a JSON object carrying
both keys. -/
lemma classifyIntent_eq (c : Collab) (q t : String) (kvs : List (String × Json))
    (tn ps : Json)
    (hllm : c.generate_content (intentPrompt q) = LLMResult.text t)
    (hparse : c.jsonLoads (cleanText t) = some (Json.obj kvs))
    (htool : objGet kvs ("tool_name") = some tn)
    (hps : objGet kvs ("parameters") = some ps) :
    classifyIntent c q = (some (Json.obj kvs), tn, ps) := by
  simp [classifyIntent, hllm, hparse, htool, hps]

/-- The success sentence carries the city name verbatim. -/
lemma weatherSentence_has_city (c d t f h : Json) :
    isSubstrOf (pyStr c) (weatherSentence c d t f h) := by
  refine ⟨"The weather in ", ?_, ?_⟩
  · exact " is currently " ++ pyStr d ++ " with a temperature of " ++ pyStr t ++
      "°C (feels like " ++ pyStr f ++ "°C) and humidity of " ++ pyStr h ++ "%."
  · simp [weatherSentence, String.append_assoc]

/-- The success sentence carries the weather description verbatim. -/
lemma weatherSentence_has_description (c d t f h : Json) :
    isSubstrOf (pyStr d) (weatherSentence c d t f h) := by
  refine ⟨"The weather in " ++ pyStr c ++ " is currently ", ?_, ?_⟩
  · exact " with a temperature of " ++ pyStr t ++ "°C (feels like " ++ pyStr f ++
      "°C) and humidity of " ++ pyStr h ++ "%."
  · simp [weatherSentence, String.append_assoc]

/-- The success sentence carries the temperature verbatim. -/
lemma weatherSentence_has_temperature (c d t f h : Json) :
    isSubstrOf (pyStr t) (weatherSentence c d t f h) := by
  refine ⟨"The weather in " ++ pyStr c ++ " is currently " ++ pyStr d ++
    " with a temperature of ", ?_, ?_⟩
  · exact "°C (feels like " ++ pyStr f ++ "°C) and humidity of " ++ pyStr h ++ "%."
  · simp [weatherSentence, String.append_assoc]

/-- The success sentence carries the humidity verbatim. -/
lemma weatherSentence_has_humidity (c d t f h : Json) :
    isSubstrOf (pyStr h) (weatherSentence c d t f h) := by
  refine ⟨"The weather in " ++ pyStr c ++ " is currently " ++ pyStr d ++
    " with a temperature of " ++ pyStr t ++ "°C (feels like " ++ pyStr f ++
    "°C) and humidity of ", "%.", ?_⟩
  simp [weatherSentence, String.append_assoc]

/-! ### Claims C6, C7, C8, C9 -/

/-- Claim C6: for every upstream response whose JSON body has `cod` equal
to 200, `get_weather` returns the formatted success sentence containing the
response body's city name, weather description, temperature and humidity
fields verbatim as formatted. -/
theorem C6_theorem (c : Collab) (loc : String) (status : Nat)
    (kvs mkvs w0 : List (String × Json)) (ws : List Json)
    (city desc temp feels hum : Json)
    (hloc : pyStrip loc ≠ "")
    (hhttp : c.httpGet (weatherUrl c loc) weatherRequestTimeout =
      HttpOutcome.ok status (Json.obj kvs))
    (hstatus : status < 500)
    (hcod : objGet kvs ("cod") = some (Json.num 200))
    (hmain : objGet kvs ("main") = some (Json.obj mkvs))
    (htemp : objGet mkvs ("temp") = some temp)
    (hfeels : objGet mkvs ("feels_like") = some feels)
    (hhum : objGet mkvs ("humidity") = some hum)
    (hweather : objGet kvs ("weather") = some (Json.arr (Json.obj w0 :: ws)))
    (hdesc : objGet w0 ("description") = some desc)
    (hname : objGet kvs ("name") = some city) :
    get_weather c (Json.str loc) = Except.ok (weatherSentence city desc temp feels hum)
    ∧ isSubstrOf (pyStr city) (weatherSentence city desc temp feels hum)
    ∧ isSubstrOf (pyStr desc) (weatherSentence city desc temp feels hum)
    ∧ isSubstrOf (pyStr temp) (weatherSentence city desc temp feels hum)
    ∧ isSubstrOf (pyStr hum) (weatherSentence city desc temp feels hum) := by
  have hne := ne_empty_of_pyStrip_ne loc hloc
  have h5 : ¬ (status ≥ 500) := by omega
  refine ⟨?_, weatherSentence_has_city city desc temp feels hum,
    weatherSentence_has_description city desc temp feels hum,
    weatherSentence_has_temperature city desc temp feels hum,
    weatherSentence_has_humidity city desc temp feels hum⟩
  simp [get_weather, truthy, hne, hloc, hhttp, h5, handleWeatherBody, hcod, pyEq,
    formatWeather, jsonGetAttr, hmain, htemp, hfeels, hhum, hweather, hdesc, hname,
    pySubscript0, Except.bind, Except.map, Bind.bind, Functor.map, Except.instMonad,
    Except.pure, Pure.pure]

/-- Witness for claim C6 at the concrete 200 scenario. -/
theorem C6_witness :
    get_weather happyCollab (Json.str ("London")) =
      Except.ok (weatherSentence (Json.str ("London")) (Json.str ("light rain"))
        (Json.num 15) (Json.num 14) (Json.num 77))
    ∧ isSubstrOf (pyStr (Json.str ("London")))
        (weatherSentence (Json.str ("London")) (Json.str ("light rain"))
          (Json.num 15) (Json.num 14) (Json.num 77))
    ∧ isSubstrOf (pyStr (Json.str ("light rain")))
        (weatherSentence (Json.str ("London")) (Json.str ("light rain"))
          (Json.num 15) (Json.num 14) (Json.num 77))
    ∧ isSubstrOf (pyStr (Json.num 15))
        (weatherSentence (Json.str ("London")) (Json.str ("light rain"))
          (Json.num 15) (Json.num 14) (Json.num 77))
    ∧ isSubstrOf (pyStr (Json.num 77))
        (weatherSentence (Json.str ("London")) (Json.str ("light rain"))
          (Json.num 15) (Json.num 14) (Json.num 77)) :=
  C6_theorem happyCollab ("London") 200 happyBodyKvs happyMainKvs happyWeather0Kvs []
    (Json.str ("London")) (Json.str ("light rain")) (Json.num 15) (Json.num 14)
    (Json.num 77) (by decide) rfl (by decide) rfl rfl rfl rfl rfl rfl rfl rfl

/-- Claim C7: the weather request carries the bounded timeout 10, and a
timed-out upstream yields the timeout-specific message, which differs from
the generic connection-failure message. -/
theorem C7_theorem (c : Collab) (loc : String)
    (h1 : pyStrip loc ≠ "")
    (h2 : c.httpGet (weatherUrl c loc) weatherRequestTimeout = HttpOutcome.timeout) :
    weatherRequestTimeout = 10
    ∧ get_weather c (Json.str loc) = Except.ok timeoutMsg
    ∧ timeoutMsg ≠ connectionFailureMsg := by
  have hne := ne_empty_of_pyStrip_ne loc h1
  refine ⟨rfl, ?_, by decide⟩
  simp [get_weather, truthy, hne, h1, h2]

/-- Witness for claim C7 at the concrete timeout scenario. -/
theorem C7_witness :
    weatherRequestTimeout = 10
    ∧ get_weather missingCollab (Json.str ("London")) = Except.ok timeoutMsg
    ∧ timeoutMsg ≠ connectionFailureMsg :=
  C7_theorem missingCollab ("London") (by decide) rfl

/-- Claim C8: an empty or whitespace-only query produces a 400 reply and no
LLM or tool events. -/
theorem C8_theorem (c : Collab) (q : String) (h : pyStrip q = "") :
    handle_agent_request c q = ([], HttpReply.error 400 ("Query cannot be empty.")) := by
  rw [handle_agent_request, if_pos (Or.inr h)]

/-- Witness for claim C8 at a whitespace-only query. -/
theorem C8_witness :
    handle_agent_request happyCollab ("   ") =
      ([], HttpReply.error 400 ("Query cannot be empty.")) :=
  C8_theorem happyCollab ("   ") (by decide)

/-- Claim C9: with the collaborators modelled as pure deterministic stubs,
two runs of the endpoint on equal queries produce identical replies, and in
particular byte-identical response text. -/
theorem C9_theorem (c c2 : Collab) (q q2 : String) (hc : c = c2) (hq : q = q2) :
    handle_agent_request c q = handle_agent_request c2 q2
    ∧ (run_agent c q).2 = (run_agent c2 q2).2 := by
  subst hc
  subst hq
  exact ⟨rfl, rfl⟩

/-- Witness for claim C9 at the concrete 200 scenario. -/
theorem C9_witness :
    handle_agent_request happyCollab ("weather in London") =
      handle_agent_request happyCollab ("weather in London")
    ∧ (run_agent happyCollab ("weather in London")).2 =
      (run_agent happyCollab ("weather in London")).2 :=
  C9_theorem happyCollab happyCollab ("weather in London") ("weather in London") rfl rfl

/-! ### Stage lemmas for the orchestrator -/

/-- The membership test never raises on membership-safe values. -/
lemma pyInContainer_ok_of_safe (p : String) (ps : Json) (h : membershipSafe ps) :
    ∃ b, pyInContainer p ps = Except.ok b := by
  cases ps with
  | null => exact h.elim
  | num n => exact h.elim
  | bool b => exact h.elim
  | str s => exact ⟨_, rfl⟩
  | arr xs => exact ⟨_, rfl⟩
  | obj kvs => exact ⟨_, rfl⟩

/-- Parameter validation never raises on membership-safe values. -/
lemma allParamsPresent_ok_of_safe (ps : Json) (h : membershipSafe ps) :
    ∃ b, allParamsPresent get_weather_required_params ps = Except.ok b := by
  obtain ⟨b, hb⟩ := pyInContainer_ok_of_safe ("location") ps h
  cases b with
  | false => exact ⟨false, by simp [allParamsPresent, get_weather_required_params, hb]⟩
  | true => exact ⟨true, by simp [allParamsPresent, get_weather_required_params, hb]⟩

/-- The tool-dispatch stage completes without an uncaught exception on safe
intents. -/
lemma executeTool_ok_of_safe (c : Collab) (tn ps : Json)
    (h1 : safeToolName tn) (h2 : tn = Json.str ("get_weather") → membershipSafe ps) :
    ∃ out, executeTool c tn ps = Except.ok out := by
  by_cases ht : truthy tn = true
  case neg =>
    refine ⟨(none, tn, []), ?_⟩
    simp only [executeTool]
    rw [if_neg (by simp [ht])]
  case pos =>
    cases tn with
    | null => simp [truthy] at ht
    | arr xs =>
      have : xs = [] := h1
      subst this
      simp [truthy] at ht
    | obj kvs =>
      have : kvs = [] := h1
      subst this
      simp [truthy] at ht
    | bool b =>
      by_cases hc : (truthy (Json.bool b) ∧ ¬ pyEq (Json.bool b) (Json.str ("none")) = true)
      · refine ⟨(some (toolUnavailableMsg (Json.bool b)), Json.str ("none"), []), ?_⟩
        simp only [executeTool, pyInTOOLS]
        rw [if_pos ht, if_pos hc]
      · refine ⟨(none, Json.bool b, []), ?_⟩
        simp only [executeTool, pyInTOOLS]
        rw [if_pos ht, if_neg hc]
    | num n =>
      by_cases hc : (truthy (Json.num n) ∧ ¬ pyEq (Json.num n) (Json.str ("none")) = true)
      · refine ⟨(some (toolUnavailableMsg (Json.num n)), Json.str ("none"), []), ?_⟩
        simp only [executeTool, pyInTOOLS]
        rw [if_pos ht, if_pos hc]
      · refine ⟨(none, Json.num n, []), ?_⟩
        simp only [executeTool, pyInTOOLS]
        rw [if_pos ht, if_neg hc]
    | str s =>
      by_cases hs : s = "get_weather"
      · subst hs
        obtain ⟨b, hb⟩ := allParamsPresent_ok_of_safe ps (h2 rfl)
        cases b with
        | true =>
          cases hr : (invokeTool c ps).2 with
          | ok v =>
            refine ⟨(some v, Json.str ("get_weather"), (invokeTool c ps).1), ?_⟩
            simp only [executeTool, pyInTOOLS]
            rw [if_pos ht]
            simp [TOOLS, hb, hr]
          | error e =>
            refine ⟨(some (toolFailedMsg (Json.str ("get_weather"))),
              Json.str ("get_weather"), (invokeTool c ps).1), ?_⟩
            simp only [executeTool, pyInTOOLS]
            rw [if_pos ht]
            simp [TOOLS, hb, hr]
        | false =>
          refine ⟨(some (missingParamsMsg (Json.str ("get_weather")) get_weather_required_params),
            Json.str ("none_missing_params"), []), ?_⟩
          simp only [executeTool, pyInTOOLS]
          rw [if_pos ht]
          simp [TOOLS, hb]
      · have hcontains : TOOLS.contains s = false := by
          simp [TOOLS, hs]
        by_cases hc : (truthy (Json.str s) ∧ ¬ pyEq (Json.str s) (Json.str ("none")) = true)
        · refine ⟨(some (toolUnavailableMsg (Json.str s)), Json.str ("none"), []), ?_⟩
          simp only [executeTool, pyInTOOLS]
          rw [if_pos ht]
          simp only [hcontains]
          rw [if_pos hc]
        · refine ⟨(none, Json.str s, []), ?_⟩
          simp only [executeTool, pyInTOOLS]
          rw [if_pos ht]
          simp only [hcontains]
          rw [if_neg hc]

/-- Prompt selection always succeeds when the parsed intent is a dict. -/
lemma selectFinalPrompt_ok (q : String) (kvs : List (String × Json))
    (t2u2 ps : Json) (tr : Option String) :
    ∃ fp, selectFinalPrompt q (some (Json.obj kvs)) t2u2 ps tr = Except.ok fp := by
  cases tr with
  | some s =>
    by_cases h : toolResultTruthy (some s) = true
    · refine ⟨toolResultPrompt q ((objGet kvs ("tool_name")).getD (Json.str ("N/A"))) ps s, ?_⟩
      simp [selectFinalPrompt, h, parsedIntentGet, Except.bind, Bind.bind,
        Except.instMonad, Except.pure, Pure.pure]
    · by_cases h2 : pyEq t2u2 (Json.str ("none_missing_params")) = true
      · refine ⟨missingParamsPrompt q ((objGet kvs ("tool_name")).getD (Json.str ("N/A")))
          get_weather_required_params, ?_⟩
        simp [selectFinalPrompt, h, h2, parsedIntentGet, Except.bind, Bind.bind,
          Except.instMonad, Except.pure, Pure.pure]
      · refine ⟨noToolPrompt q, ?_⟩
        simp [selectFinalPrompt, h, h2, Except.pure, Pure.pure]
  | none =>
    by_cases h2 : pyEq t2u2 (Json.str ("none_missing_params")) = true
    · refine ⟨missingParamsPrompt q ((objGet kvs ("tool_name")).getD (Json.str ("N/A")))
        get_weather_required_params, ?_⟩
      simp [selectFinalPrompt, toolResultTruthy, h2, parsedIntentGet, Except.bind, Bind.bind,
        Except.instMonad, Except.pure, Pure.pure]
    · refine ⟨noToolPrompt q, ?_⟩
      simp [selectFinalPrompt, toolResultTruthy, h2, Except.pure, Pure.pure]

/-- Debug-info construction always succeeds when the parsed intent is a
dict. -/
lemma buildDebugInfo_ok_obj (kvs : List (String × Json)) (ps : Json) (tr : Option String) :
    ∃ d, buildDebugInfo (some (Json.obj kvs)) ps tr = Except.ok d := by
  cases tr with
  | some s =>
    by_cases h : toolResultTruthy (some s) = true
    · refine ⟨{ parsed_intent := Json.obj kvs,
                tool_called := (objGet kvs ("tool_name")).getD (Json.str ("N/A")),
                tool_parameters := ps, tool_result := Json.str s }, ?_⟩
      simp [buildDebugInfo, h, parsedIntentGet, Except.bind, Bind.bind,
        Except.instMonad, Except.pure, Pure.pure]
    · refine ⟨{ parsed_intent := Json.obj kvs, tool_called := Json.str ("none"),
                tool_parameters := ps, tool_result := Json.str ("N/A") }, ?_⟩
      simp [buildDebugInfo, h, Except.bind, Bind.bind,
        Except.instMonad, Except.pure, Pure.pure]
  | none =>
    refine ⟨{ parsed_intent := Json.obj kvs, tool_called := Json.str ("none"),
              tool_parameters := ps, tool_result := Json.str ("N/A") }, ?_⟩
    simp [buildDebugInfo, toolResultTruthy, Except.bind, Bind.bind,
      Except.instMonad, Except.pure, Pure.pure]

/-- A falsy `tool_to_use` never equals the "none_missing_params" marker. -/
lemma pyEq_nmp_false_of_falsy (tn : Json) (h : truthy tn = false) :
    pyEq tn (Json.str ("none_missing_params")) = false := by
  cases tn with
  | null => rfl
  | bool b => rfl
  | num n => rfl
  | arr xs => rfl
  | obj kvs => rfl
  | str s =>
    have hs : s = "" := by
      simpa [truthy] using h
    subst hs
    decide

/-- When the tool-dispatch stage produces no tool result, `run_agent`
completes with the no-tool prompt. -/
lemma run_agent_noTool (c : Collab) (q : String) (pi : Option Json) (t2u ps : Json)
    (hclass : classifyIntent c q = (pi, t2u, ps))
    (hexec : executeTool c t2u ps = Except.ok (none, t2u, []))
    (hne : pyEq t2u (Json.str ("none_missing_params")) = false) :
    run_agent c q =
      ([Event.llmCall (intentPrompt q), Event.llmCall (noToolPrompt q)],
        Except.ok
          { response :=
              (match c.generate_content (noToolPrompt q) with
                | .text t => pyStrip t
                | .raised => fallbackAnswer),
            debug_info :=
              { parsed_intent :=
                  (match pi with | some j => j | none => Json.str ("Parsing Failed")),
                tool_called := Json.str ("none"),
                tool_parameters := ps,
                tool_result := Json.str ("N/A") } }) := by
  cases pi with
  | none =>
    have hprompt : selectFinalPrompt q none t2u ps none = Except.ok (noToolPrompt q) := by
      simp [selectFinalPrompt, toolResultTruthy, hne, Except.pure, Pure.pure]
    have hdbg : buildDebugInfo none ps none = Except.ok
        { parsed_intent := Json.str ("Parsing Failed"),
          tool_called := Json.str ("none"), tool_parameters := ps,
          tool_result := Json.str ("N/A") } := by
      simp [buildDebugInfo, toolResultTruthy, Except.bind, Bind.bind, Except.instMonad,
        Except.pure, Pure.pure]
    have := run_agent_eq c q none t2u ps none t2u [] (noToolPrompt q) _ hclass hexec hprompt hdbg
    simpa using this
  | some j =>
    have hprompt : selectFinalPrompt q (some j) t2u ps none = Except.ok (noToolPrompt q) := by
      simp [selectFinalPrompt, toolResultTruthy, hne, Except.pure, Pure.pure]
    have hdbg : buildDebugInfo (some j) ps none = Except.ok
        { parsed_intent := j,
          tool_called := Json.str ("none"), tool_parameters := ps,
          tool_result := Json.str ("N/A") } := by
      simp [buildDebugInfo, toolResultTruthy, Except.bind, Bind.bind, Except.instMonad,
        Except.pure, Pure.pure]
    have := run_agent_eq c q (some j) t2u ps none t2u [] (noToolPrompt q) _ hclass hexec hprompt hdbg
    simpa using this

/-! ### Claim C2 -/

/-- Counterexample to claim C2 as stated: when the intent LLM answers with
the JSON value in which `parameters` is null, the membership test
`"location" in parameters` raises an uncaught `TypeError`, so `run_agent`
raises past its boundary and the endpoint converts it to a 500. -/
theorem C2_counterexample :
    (run_agent nullParamsCollab ("weather please")).2 = Except.error PyExc.typeError
    ∧ (handle_agent_request nullParamsCollab ("weather please")).2 =
        HttpReply.error 500 ("Internal Server Error: An unexpected error occurred.") :=
  ⟨rfl, rfl⟩

/-- Claim C2 amended: for every query and every collaborator behaviour
whose parsed intent (when the parse succeeds with a JSON object) has a
`tool_name` that is not a truthy list or dict and, when `tool_name` is the
registered tool name, a `parameters` value supporting membership tests
(a dict, list or string), `run_agent` returns an `AgentResponse` and never
raises past its boundary. -/
theorem C2_amended (c : Collab) (q : String)
    (h : ∀ j, intentParseOutcome c q = some j → safeIntent j) :
    ∃ a, (run_agent c q).2 = Except.ok a := by
  rcases hg : c.generate_content (intentPrompt q) with _ | t
  · have hclass : classifyIntent c q = (none, Json.str ("none"), Json.obj []) := by
      simp [classifyIntent, hg]
    rw [run_agent_noTool c q none (Json.str ("none")) (Json.obj []) hclass rfl (by decide)]
    exact ⟨_, rfl⟩
  · rcases hj : c.jsonLoads (cleanText t) with _ | j
    · have hclass : classifyIntent c q = (none, Json.str ("none"), Json.obj []) := by
        simp [classifyIntent, hg, hj]
      rw [run_agent_noTool c q none (Json.str ("none")) (Json.obj []) hclass rfl (by decide)]
      exact ⟨_, rfl⟩
    · have hsafe : safeIntent j := h j (by simp [intentParseOutcome, hg, hj])
      cases j with
      | obj kvs =>
        have hclass : classifyIntent c q =
            (some (Json.obj kvs), (objGet kvs ("tool_name")).getD Json.null,
              (objGet kvs ("parameters")).getD (Json.obj [])) := by
          simp [classifyIntent, hg, hj]
        obtain ⟨h1, h2⟩ := hsafe
        obtain ⟨⟨tr, t2u2, tevs⟩, hexec⟩ :=
          executeTool_ok_of_safe c ((objGet kvs ("tool_name")).getD Json.null)
            ((objGet kvs ("parameters")).getD (Json.obj [])) h1 h2
        obtain ⟨fp, hfp⟩ :=
          selectFinalPrompt_ok q kvs t2u2 ((objGet kvs ("parameters")).getD (Json.obj [])) tr
        obtain ⟨d, hd⟩ :=
          buildDebugInfo_ok_obj kvs ((objGet kvs ("parameters")).getD (Json.obj [])) tr
        rw [run_agent_eq c q (some (Json.obj kvs)) ((objGet kvs ("tool_name")).getD Json.null)
          ((objGet kvs ("parameters")).getD (Json.obj [])) tr t2u2 tevs fp d hclass hexec hfp hd]
        exact ⟨_, rfl⟩
      | null =>
        have hclass : classifyIntent c q = (some Json.null, Json.str ("none"), Json.obj []) := by
          simp [classifyIntent, hg, hj]
        rw [run_agent_noTool c q (some Json.null) (Json.str ("none")) (Json.obj []) hclass rfl
          (by decide)]
        exact ⟨_, rfl⟩
      | bool b =>
        have hclass : classifyIntent c q =
            (some (Json.bool b), Json.str ("none"), Json.obj []) := by
          simp [classifyIntent, hg, hj]
        rw [run_agent_noTool c q (some (Json.bool b)) (Json.str ("none")) (Json.obj []) hclass rfl
          (by decide)]
        exact ⟨_, rfl⟩
      | num n =>
        have hclass : classifyIntent c q =
            (some (Json.num n), Json.str ("none"), Json.obj []) := by
          simp [classifyIntent, hg, hj]
        rw [run_agent_noTool c q (some (Json.num n)) (Json.str ("none")) (Json.obj []) hclass rfl
          (by decide)]
        exact ⟨_, rfl⟩
      | str s =>
        have hclass : classifyIntent c q =
            (some (Json.str s), Json.str ("none"), Json.obj []) := by
          simp [classifyIntent, hg, hj]
        rw [run_agent_noTool c q (some (Json.str s)) (Json.str ("none")) (Json.obj []) hclass rfl
          (by decide)]
        exact ⟨_, rfl⟩
      | arr xs =>
        have hclass : classifyIntent c q =
            (some (Json.arr xs), Json.str ("none"), Json.obj []) := by
          simp [classifyIntent, hg, hj]
        rw [run_agent_noTool c q (some (Json.arr xs)) (Json.str ("none")) (Json.obj []) hclass rfl
          (by decide)]
        exact ⟨_, rfl⟩

/-- Witness for the amended claim C2 at the concrete 200 scenario. -/
theorem C2_witness : ∃ a, (run_agent happyCollab ("weather in London")).2 = Except.ok a :=
  C2_amended happyCollab ("weather in London") (by
    intro j hj
    rw [show intentParseOutcome happyCollab ("weather in London") =
      some (Json.obj happyIntentKvs) from rfl] at hj
    cases hj
    exact ⟨trivial, fun _ => trivial⟩)

/-! ### Claim C1 -/

/-- Counterexample to claim C1 as stated: on a query classified to
`get_weather` with empty parameters, a tool result IS produced (the
missing-parameters error text, visible in `debug_info.tool_result`), and
the final-response prompt is the generic tool-result prompt embedding that
text, not the distinct missing-params clarification template (which is
unreachable, because line 199 always makes `tool_result` truthy before the
line 221 check). -/
theorem C1_counterexample :
    toolCallsOf (run_agent missingCollab ("how is the weather")).1 = []
    ∧ (run_agent missingCollab ("how is the weather")).1 =
        [Event.llmCall (intentPrompt ("how is the weather")),
         Event.llmCall (toolResultPrompt ("how is the weather") (Json.str ("get_weather"))
           (Json.obj []) (missingParamsMsg (Json.str ("get_weather")) get_weather_required_params))]
    ∧ (∃ a, (run_agent missingCollab ("how is the weather")).2 = Except.ok a
        ∧ a.debug_info.tool_result =
            Json.str (missingParamsMsg (Json.str ("get_weather")) get_weather_required_params)
        ∧ a.debug_info.tool_result ≠ Json.str ("N/A"))
    ∧ toolResultPrompt ("how is the weather") (Json.str ("get_weather")) (Json.obj [])
        (missingParamsMsg (Json.str ("get_weather")) get_weather_required_params)
      ≠ missingParamsPrompt ("how is the weather") (Json.str ("get_weather"))
          get_weather_required_params := by
  refine ⟨rfl, rfl, ⟨_, rfl, rfl, ?_⟩, ?_⟩
  · intro hx
    have : missingParamsMsg (Json.str ("get_weather")) get_weather_required_params = "N/A" := by
      injection hx
    exact absurd this (by decide)
  · decide

/-- Claim C1 amended: for every query classified to the registered tool
with the required parameter absent from the parsed parameters mapping, the
tool is not invoked and a missing-parameters error tool result naming the
required parameter is produced; the final-response prompt is the generic
tool-result prompt embedding that error text (the distinct missing-params
clarification template is dead code). -/
theorem C1_amended (c : Collab) (q t : String) (kvs pkvs : List (String × Json))
    (hllm : c.generate_content (intentPrompt q) = LLMResult.text t)
    (hparse : c.jsonLoads (cleanText t) = some (Json.obj kvs))
    (htool : objGet kvs ("tool_name") = some (Json.str ("get_weather")))
    (hps : objGet kvs ("parameters") = some (Json.obj pkvs))
    (hmissing : pkvs.any (fun p => p.1 = ("location" : String)) = false) :
    toolCallsOf (run_agent c q).1 = []
    ∧ (run_agent c q).1 =
        [Event.llmCall (intentPrompt q),
         Event.llmCall (toolResultPrompt q (Json.str ("get_weather")) (Json.obj pkvs)
           (missingParamsMsg (Json.str ("get_weather")) get_weather_required_params))]
    ∧ (∃ a, (run_agent c q).2 = Except.ok a
        ∧ a.debug_info.tool_result =
            Json.str (missingParamsMsg (Json.str ("get_weather")) get_weather_required_params))
    ∧ strContainsSub (missingParamsMsg (Json.str ("get_weather")) get_weather_required_params)
        ("location") = true := by
  have hclass := classifyIntent_eq c q t kvs _ _ hllm hparse htool hps
  have hexec : executeTool c (Json.str ("get_weather")) (Json.obj pkvs) =
      Except.ok (some (missingParamsMsg (Json.str ("get_weather")) get_weather_required_params),
        Json.str ("none_missing_params"), []) := by
    simp only [executeTool, pyInTOOLS]
    rw [if_pos (by decide)]
    simp [TOOLS, allParamsPresent, get_weather_required_params, pyInContainer, hmissing]
  have htr : toolResultTruthy
      (some (missingParamsMsg (Json.str ("get_weather")) get_weather_required_params)) = true := by
    decide
  have hprompt : selectFinalPrompt q (some (Json.obj kvs)) (Json.str ("none_missing_params"))
      (Json.obj pkvs)
      (some (missingParamsMsg (Json.str ("get_weather")) get_weather_required_params)) =
      Except.ok (toolResultPrompt q (Json.str ("get_weather")) (Json.obj pkvs)
        (missingParamsMsg (Json.str ("get_weather")) get_weather_required_params)) := by
    simp [selectFinalPrompt, htr, parsedIntentGet, htool, Except.bind, Bind.bind,
      Except.instMonad, Except.pure, Pure.pure]
  have hdbg : buildDebugInfo (some (Json.obj kvs)) (Json.obj pkvs)
      (some (missingParamsMsg (Json.str ("get_weather")) get_weather_required_params)) =
      Except.ok
        { parsed_intent := Json.obj kvs,
          tool_called := Json.str ("get_weather"),
          tool_parameters := Json.obj pkvs,
          tool_result :=
            Json.str (missingParamsMsg (Json.str ("get_weather")) get_weather_required_params) } := by
    simp [buildDebugInfo, htr, parsedIntentGet, htool, Except.bind, Bind.bind,
      Except.instMonad, Except.pure, Pure.pure]
  rw [run_agent_eq c q _ _ _ _ _ _ _ _ hclass hexec hprompt hdbg]
  refine ⟨by simp [toolCallsOf], by simp, ⟨_, rfl, rfl⟩, by decide⟩

/-- Witness for the amended claim C1 at the concrete missing-parameter
scenario. -/
theorem C1_witness :
    toolCallsOf (run_agent missingCollab ("what about the weather")).1 = []
    ∧ (run_agent missingCollab ("what about the weather")).1 =
        [Event.llmCall (intentPrompt ("what about the weather")),
         Event.llmCall (toolResultPrompt ("what about the weather") (Json.str ("get_weather"))
           (Json.obj []) (missingParamsMsg (Json.str ("get_weather")) get_weather_required_params))]
    ∧ (∃ a, (run_agent missingCollab ("what about the weather")).2 = Except.ok a
        ∧ a.debug_info.tool_result =
            Json.str (missingParamsMsg (Json.str ("get_weather")) get_weather_required_params))
    ∧ strContainsSub (missingParamsMsg (Json.str ("get_weather")) get_weather_required_params)
        ("location") = true :=
  C1_amended missingCollab ("what about the weather") missingIntentText missingIntentKvs []
    rfl rfl rfl rfl rfl

/-! ### Claim C4 -/

/-- Claim C4: for every query classified to the registered tool with a
parameters mapping containing the required parameter name, the tool call
expression is evaluated exactly once, with exactly the parsed parameters
value as its arguments. -/
theorem C4_theorem (c : Collab) (q t : String) (kvs pkvs : List (String × Json))
    (hllm : c.generate_content (intentPrompt q) = LLMResult.text t)
    (hparse : c.jsonLoads (cleanText t) = some (Json.obj kvs))
    (htool : objGet kvs ("tool_name") = some (Json.str ("get_weather")))
    (hps : objGet kvs ("parameters") = some (Json.obj pkvs))
    (hloc : pkvs.any (fun p => p.1 = ("location" : String)) = true) :
    toolCallsOf (run_agent c q).1 = [Event.toolCall ("get_weather") (Json.obj pkvs)] := by
  have hclass := classifyIntent_eq c q t kvs _ _ hllm hparse htool hps
  have hall : allParamsPresent get_weather_required_params (Json.obj pkvs) = Except.ok true := by
    simp [allParamsPresent, get_weather_required_params, pyInContainer, hloc]
  have hinv : (invokeTool c (Json.obj pkvs)).1 =
      [Event.toolCall ("get_weather") (Json.obj pkvs)] := rfl
  cases hr : (invokeTool c (Json.obj pkvs)).2 with
  | ok v =>
    have hexec : executeTool c (Json.str ("get_weather")) (Json.obj pkvs) =
        Except.ok (some v, Json.str ("get_weather"), (invokeTool c (Json.obj pkvs)).1) := by
      simp only [executeTool, pyInTOOLS]
      rw [if_pos (by decide)]
      simp [TOOLS, hall, hr]
    obtain ⟨fp, hfp⟩ :=
      selectFinalPrompt_ok q kvs (Json.str ("get_weather")) (Json.obj pkvs) (some v)
    obtain ⟨d, hd⟩ := buildDebugInfo_ok_obj kvs (Json.obj pkvs) (some v)
    rw [run_agent_eq c q _ _ _ _ _ _ _ _ hclass hexec hfp hd]
    simp [toolCallsOf, hinv]
  | error e =>
    have hexec : executeTool c (Json.str ("get_weather")) (Json.obj pkvs) =
        Except.ok (some (toolFailedMsg (Json.str ("get_weather"))), Json.str ("get_weather"),
          (invokeTool c (Json.obj pkvs)).1) := by
      simp only [executeTool, pyInTOOLS]
      rw [if_pos (by decide)]
      simp [TOOLS, hall, hr]
    obtain ⟨fp, hfp⟩ := selectFinalPrompt_ok q kvs (Json.str ("get_weather")) (Json.obj pkvs)
      (some (toolFailedMsg (Json.str ("get_weather"))))
    obtain ⟨d, hd⟩ := buildDebugInfo_ok_obj kvs (Json.obj pkvs)
      (some (toolFailedMsg (Json.str ("get_weather"))))
    rw [run_agent_eq c q _ _ _ _ _ _ _ _ hclass hexec hfp hd]
    simp [toolCallsOf, hinv]

/-- Witness for claim C4 at the concrete 200 scenario. -/
theorem C4_witness :
    toolCallsOf (run_agent happyCollab ("weather in London")).1 =
      [Event.toolCall ("get_weather") (Json.obj happyParamsKvs)] :=
  C4_theorem happyCollab ("weather in London") happyIntentText happyIntentKvs happyParamsKvs
    rfl rfl rfl rfl rfl

/-! ### Claim C10 -/

/-- Claim C10: for every query classified to the registered tool whose
parameters mapping contains the required parameter plus at least one extra
key, parameter validation passes, the tool call raises `TypeError` during
keyword binding, and the result delivered to the final prompt is the
generic failed-to-execute error text (distinct from the missing-params
clarification). -/
theorem C10_theorem (c : Collab) (q t : String) (kvs pkvs : List (String × Json))
    (hllm : c.generate_content (intentPrompt q) = LLMResult.text t)
    (hparse : c.jsonLoads (cleanText t) = some (Json.obj kvs))
    (htool : objGet kvs ("tool_name") = some (Json.str ("get_weather")))
    (hps : objGet kvs ("parameters") = some (Json.obj pkvs))
    (hloc : pkvs.any (fun p => p.1 = ("location" : String)) = true)
    (hextra : pkvs.all (fun p => p.1 = ("location" : String)) = false) :
    allParamsPresent get_weather_required_params (Json.obj pkvs) = Except.ok true
    ∧ (invokeTool c (Json.obj pkvs)).2 = Except.error PyExc.typeError
    ∧ (run_agent c q).1 =
        [Event.llmCall (intentPrompt q),
         Event.toolCall ("get_weather") (Json.obj pkvs),
         Event.llmCall (toolResultPrompt q (Json.str ("get_weather")) (Json.obj pkvs)
           (toolFailedMsg (Json.str ("get_weather"))))]
    ∧ (∃ a, (run_agent c q).2 = Except.ok a
        ∧ a.debug_info.tool_result = Json.str (toolFailedMsg (Json.str ("get_weather"))))
    ∧ toolFailedMsg (Json.str ("get_weather"))
        ≠ missingParamsMsg (Json.str ("get_weather")) get_weather_required_params := by
  have hclass := classifyIntent_eq c q t kvs _ _ hllm hparse htool hps
  have hall : allParamsPresent get_weather_required_params (Json.obj pkvs) = Except.ok true := by
    simp [allParamsPresent, get_weather_required_params, pyInContainer, hloc]
  have hinv2 : (invokeTool c (Json.obj pkvs)).2 = Except.error PyExc.typeError := by
    simp [invokeTool, hextra]
  have hexec : executeTool c (Json.str ("get_weather")) (Json.obj pkvs) =
      Except.ok (some (toolFailedMsg (Json.str ("get_weather"))), Json.str ("get_weather"),
        (invokeTool c (Json.obj pkvs)).1) := by
    simp only [executeTool, pyInTOOLS]
    rw [if_pos (by decide)]
    simp [TOOLS, hall, hinv2]
  have htr : toolResultTruthy (some (toolFailedMsg (Json.str ("get_weather")))) = true := by
    decide
  have hprompt : selectFinalPrompt q (some (Json.obj kvs)) (Json.str ("get_weather"))
      (Json.obj pkvs) (some (toolFailedMsg (Json.str ("get_weather")))) =
      Except.ok (toolResultPrompt q (Json.str ("get_weather")) (Json.obj pkvs)
        (toolFailedMsg (Json.str ("get_weather")))) := by
    simp [selectFinalPrompt, htr, parsedIntentGet, htool, Except.bind, Bind.bind,
      Except.instMonad, Except.pure, Pure.pure]
  have hdbg : buildDebugInfo (some (Json.obj kvs)) (Json.obj pkvs)
      (some (toolFailedMsg (Json.str ("get_weather")))) =
      Except.ok
        { parsed_intent := Json.obj kvs,
          tool_called := Json.str ("get_weather"),
          tool_parameters := Json.obj pkvs,
          tool_result := Json.str (toolFailedMsg (Json.str ("get_weather"))) } := by
    simp [buildDebugInfo, htr, parsedIntentGet, htool, Except.bind, Bind.bind,
      Except.instMonad, Except.pure, Pure.pure]
  rw [run_agent_eq c q _ _ _ _ _ _ _ _ hclass hexec hprompt hdbg]
  refine ⟨hall, hinv2, by simp [invokeTool], ⟨_, rfl, rfl⟩, by decide⟩

/-- Witness for claim C10 at the concrete extra-keyword scenario. -/
theorem C10_witness :
    allParamsPresent get_weather_required_params (Json.obj extraParamsKvs) = Except.ok true
    ∧ (invokeTool extraCollab (Json.obj extraParamsKvs)).2 = Except.error PyExc.typeError
    ∧ (run_agent extraCollab ("w")).1 =
        [Event.llmCall (intentPrompt ("w")),
         Event.toolCall ("get_weather") (Json.obj extraParamsKvs),
         Event.llmCall (toolResultPrompt ("w") (Json.str ("get_weather")) (Json.obj extraParamsKvs)
           (toolFailedMsg (Json.str ("get_weather"))))]
    ∧ (∃ a, (run_agent extraCollab ("w")).2 = Except.ok a
        ∧ a.debug_info.tool_result = Json.str (toolFailedMsg (Json.str ("get_weather"))))
    ∧ toolFailedMsg (Json.str ("get_weather"))
        ≠ missingParamsMsg (Json.str ("get_weather")) get_weather_required_params :=
  C10_theorem extraCollab ("w") extraIntentText extraIntentKvs extraParamsKvs rfl rfl rfl rfl
    (by decide) (by decide)

/-! ### Claim C5 -/

/-- Claim C5 amended: for every query classified with a non-empty string
tool name distinct from "none" and absent from the registry, no tool call
expression is evaluated and the unavailable-tool error text is synthesized
as the tool result and passed to the final prompt. -/
theorem C5_amended (c : Collab) (q t s : String) (kvs : List (String × Json)) (ps : Json)
    (hllm : c.generate_content (intentPrompt q) = LLMResult.text t)
    (hparse : c.jsonLoads (cleanText t) = some (Json.obj kvs))
    (htool : objGet kvs ("tool_name") = some (Json.str s))
    (hps : objGet kvs ("parameters") = some ps)
    (hs1 : s ≠ "") (hs2 : s ≠ "none") (hs3 : s ≠ "get_weather") :
    toolCallsOf (run_agent c q).1 = []
    ∧ (run_agent c q).1 =
      [Event.llmCall (intentPrompt q),
       Event.llmCall (toolResultPrompt q (Json.str s) ps (toolUnavailableMsg (Json.str s)))]
    ∧ ∃ a, (run_agent c q).2 = Except.ok a
        ∧ a.debug_info.tool_result = Json.str (toolUnavailableMsg (Json.str s)) := by
  have hclass := classifyIntent_eq c q t kvs _ _ hllm hparse htool hps
  have htruthy : truthy (Json.str s) = true := by simp [truthy, hs1]
  have hcontains : TOOLS.contains s = false := by simp [TOOLS, hs3]
  have hpyEq : pyEq (Json.str s) (Json.str ("none")) = false := by simp [pyEq, hs2]
  have hexec : executeTool c (Json.str s) ps =
      Except.ok (some (toolUnavailableMsg (Json.str s)), Json.str ("none"), []) := by
    simp only [executeTool, pyInTOOLS]
    rw [if_pos htruthy]
    simp only [hcontains]
    rw [if_pos ⟨htruthy, by simp [hpyEq]⟩]
  have htr : toolResultTruthy (some (toolUnavailableMsg (Json.str s))) = true := by
    simp [toolResultTruthy, toolUnavailableMsg_ne_empty]
  have hprompt : selectFinalPrompt q (some (Json.obj kvs)) (Json.str ("none")) ps
      (some (toolUnavailableMsg (Json.str s))) =
      Except.ok (toolResultPrompt q (Json.str s) ps (toolUnavailableMsg (Json.str s))) := by
    simp [selectFinalPrompt, htr, parsedIntentGet, htool, Except.bind, Bind.bind,
      Except.instMonad, Except.pure, Pure.pure]
  have hdbg : buildDebugInfo (some (Json.obj kvs)) ps
      (some (toolUnavailableMsg (Json.str s))) =
      Except.ok
        { parsed_intent := Json.obj kvs,
          tool_called := Json.str s,
          tool_parameters := ps,
          tool_result := Json.str (toolUnavailableMsg (Json.str s)) } := by
    simp [buildDebugInfo, htr, parsedIntentGet, htool, Except.bind, Bind.bind,
      Except.instMonad, Except.pure, Pure.pure]
  rw [run_agent_eq c q _ _ _ _ _ _ _ _ hclass hexec hprompt hdbg]
  exact ⟨by simp [toolCallsOf], by simp, ⟨_, rfl, rfl⟩⟩

/-- Witness for the amended claim C5 at the concrete unknown-tool
scenario. -/
theorem C5_witness :
    toolCallsOf (run_agent stocksCollab ("check stocks")).1 = []
    ∧ (run_agent stocksCollab ("check stocks")).1 =
      [Event.llmCall (intentPrompt ("check stocks")),
       Event.llmCall (toolResultPrompt ("check stocks") (Json.str ("get_stocks")) (Json.obj [])
         (toolUnavailableMsg (Json.str ("get_stocks"))))]
    ∧ ∃ a, (run_agent stocksCollab ("check stocks")).2 = Except.ok a
        ∧ a.debug_info.tool_result = Json.str (toolUnavailableMsg (Json.str ("get_stocks"))) :=
  C5_amended stocksCollab ("check stocks") stocksIntentText ("get_stocks") stocksIntentKvs
    (Json.obj []) rfl rfl rfl rfl (by decide) (by decide) (by decide)

set_option maxRecDepth 8000 in
/-- Counterexample to claim C5 as stated: the empty string is a non-"none"
tool name absent from the registry, yet the orchestrator synthesizes no
unavailable-tool result for it (`debug_info.tool_result` stays "N/A") and
uses the no-tool prompt, which does not mention unavailability. -/
theorem C5_counterexample :
    (run_agent emptyToolCollab ("do something")).1 =
      [Event.llmCall (intentPrompt ("do something")), Event.llmCall (noToolPrompt ("do something"))]
    ∧ (∃ a, (run_agent emptyToolCollab ("do something")).2 = Except.ok a
        ∧ a.debug_info.tool_result = Json.str ("N/A")
        ∧ a.debug_info.tool_called = Json.str ("none"))
    ∧ strContainsSub (noToolPrompt ("do something")) ("is not available") = false := by
  refine ⟨rfl, ⟨_, rfl, rfl, rfl⟩, by decide⟩

/-! ### Claim C3 -/

/-- Claim C3 amended: if the intent LLM call raises, or the cleaned
response text is not parseable JSON, or the parsed JSON is not an object,
or the `tool_name` key is absent from the parsed object, then the request
still completes successfully with the no-tool conversational response
prompt and `tool_called` "none" (the parsed `parameters` value is retained
in diagnostics when only `tool_name` was absent, and empty otherwise). -/
theorem C3_amended (c : Collab) (q : String)
    (h : intentParseOutcome c q = none
       ∨ (∃ j, intentParseOutcome c q = some j ∧ (∀ kvs, j ≠ Json.obj kvs))
       ∨ (∃ kvs, intentParseOutcome c q = some (Json.obj kvs)
            ∧ objGet kvs ("tool_name") = none)) :
    (run_agent c q).1 = [Event.llmCall (intentPrompt q), Event.llmCall (noToolPrompt q)]
    ∧ ∃ a, (run_agent c q).2 = Except.ok a
        ∧ a.debug_info.tool_called = Json.str ("none")
        ∧ a.response = (match c.generate_content (noToolPrompt q) with
            | LLMResult.text t2 => pyStrip t2
            | LLMResult.raised => fallbackAnswer) := by
  rcases h with h | ⟨j, hj, hno⟩ | ⟨kvs, hkvs, hnone⟩
  · rcases hg : c.generate_content (intentPrompt q) with _ | t
    · have hclass : classifyIntent c q = (none, Json.str ("none"), Json.obj []) := by
        simp [classifyIntent, hg]
      rw [run_agent_noTool c q none (Json.str ("none")) (Json.obj []) hclass rfl (by decide)]
      exact ⟨rfl, ⟨_, rfl, rfl, rfl⟩⟩
    · have hl : c.jsonLoads (cleanText t) = none := by
        simpa [intentParseOutcome, hg] using h
      have hclass : classifyIntent c q = (none, Json.str ("none"), Json.obj []) := by
        simp [classifyIntent, hg, hl]
      rw [run_agent_noTool c q none (Json.str ("none")) (Json.obj []) hclass rfl (by decide)]
      exact ⟨rfl, ⟨_, rfl, rfl, rfl⟩⟩
  · rcases hg : c.generate_content (intentPrompt q) with _ | t
    · simp [intentParseOutcome, hg] at hj
    · have hl : c.jsonLoads (cleanText t) = some j := by
        simpa [intentParseOutcome, hg] using hj
      cases j with
      | obj kvs => exact absurd rfl (hno kvs)
      | null =>
        have hclass : classifyIntent c q = (some Json.null, Json.str ("none"), Json.obj []) := by
          simp [classifyIntent, hg, hl]
        rw [run_agent_noTool c q (some Json.null) (Json.str ("none")) (Json.obj []) hclass rfl
          (by decide)]
        exact ⟨rfl, ⟨_, rfl, rfl, rfl⟩⟩
      | bool b =>
        have hclass : classifyIntent c q =
            (some (Json.bool b), Json.str ("none"), Json.obj []) := by
          simp [classifyIntent, hg, hl]
        rw [run_agent_noTool c q (some (Json.bool b)) (Json.str ("none")) (Json.obj []) hclass rfl
          (by decide)]
        exact ⟨rfl, ⟨_, rfl, rfl, rfl⟩⟩
      | num n =>
        have hclass : classifyIntent c q =
            (some (Json.num n), Json.str ("none"), Json.obj []) := by
          simp [classifyIntent, hg, hl]
        rw [run_agent_noTool c q (some (Json.num n)) (Json.str ("none")) (Json.obj []) hclass rfl
          (by decide)]
        exact ⟨rfl, ⟨_, rfl, rfl, rfl⟩⟩
      | str s =>
        have hclass : classifyIntent c q =
            (some (Json.str s), Json.str ("none"), Json.obj []) := by
          simp [classifyIntent, hg, hl]
        rw [run_agent_noTool c q (some (Json.str s)) (Json.str ("none")) (Json.obj []) hclass rfl
          (by decide)]
        exact ⟨rfl, ⟨_, rfl, rfl, rfl⟩⟩
      | arr xs =>
        have hclass : classifyIntent c q =
            (some (Json.arr xs), Json.str ("none"), Json.obj []) := by
          simp [classifyIntent, hg, hl]
        rw [run_agent_noTool c q (some (Json.arr xs)) (Json.str ("none")) (Json.obj []) hclass rfl
          (by decide)]
        exact ⟨rfl, ⟨_, rfl, rfl, rfl⟩⟩
  · rcases hg : c.generate_content (intentPrompt q) with _ | t
    · simp [intentParseOutcome, hg] at hkvs
    · have hl : c.jsonLoads (cleanText t) = some (Json.obj kvs) := by
        simpa [intentParseOutcome, hg] using hkvs
      have hclass : classifyIntent c q = (some (Json.obj kvs), Json.null,
          (objGet kvs ("parameters")).getD (Json.obj [])) := by
        simp [classifyIntent, hg, hl, hnone]
      rw [run_agent_noTool c q (some (Json.obj kvs)) Json.null
        ((objGet kvs ("parameters")).getD (Json.obj [])) hclass rfl rfl]
      exact ⟨rfl, ⟨_, rfl, rfl, rfl⟩⟩

/-- Witness for the amended claim C3 at the raising-LLM scenario. -/
theorem C3_witness :
    (run_agent raisingCollab ("hello there")).1 =
      [Event.llmCall (intentPrompt ("hello there")), Event.llmCall (noToolPrompt ("hello there"))]
    ∧ ∃ a, (run_agent raisingCollab ("hello there")).2 = Except.ok a
        ∧ a.debug_info.tool_called = Json.str ("none")
        ∧ a.response = (match raisingCollab.generate_content (noToolPrompt ("hello there")) with
            | LLMResult.text t2 => pyStrip t2
            | LLMResult.raised => fallbackAnswer) :=
  C3_amended raisingCollab ("hello there") (Or.inl rfl)

/-- Counterexample to claim C3 as stated: when the required `tool_name` key
is absent but `parameters` is present, the request completes with the
no-tool prompt, yet classification does NOT degrade to empty parameters:
the parsed parameters value is retained and is not the empty mapping. -/
theorem C3_counterexample :
    (run_agent noNameCollab ("hmm")).1 =
      [Event.llmCall (intentPrompt ("hmm")), Event.llmCall (noToolPrompt ("hmm"))]
    ∧ ∃ a, (run_agent noNameCollab ("hmm")).2 = Except.ok a
        ∧ a.debug_info.tool_called = Json.str ("none")
        ∧ a.debug_info.tool_parameters = Json.obj [(("location"), Json.str ("Paris"))]
        ∧ a.debug_info.tool_parameters ≠ Json.obj [] := by
  refine ⟨rfl, ⟨_, rfl, rfl, rfl, ?_⟩⟩
  intro hx
  have hx2 : Json.obj [(("location"), Json.str ("Paris"))] = Json.obj [] := hx
  injection hx2 with h1
  exact absurd h1 (List.cons_ne_nil _ _)

end TaskMaster
